import Mathlib

/-!
Shallow embedding of the stealth AI action pipeline
(`runStealthAction` / `runStealthActionInternal` in the extension source).

The TypeScript module keeps two module-level mutable variables
(`isRunning`, `lastRunTime`) acting as an execution gate, and runs a
pipeline of external effects: config resolution, a marker write to the
clipboard, simulated copy keystrokes, clipboard reads, an AI call, a
temp-file staged clipboard copy and a simulated paste.  We model the
external world by an `Env` oracle that fixes the outcome of every
external operation (what a clipboard read returns, whether an `execSync`
call throws, what the AI returns), and the pipeline as a pure function
from that oracle to a trace of performed effects plus a final outcome.
-/

/-- JS `String.prototype.trim()`: strip leading and trailing whitespace,
leaving interior characters untouched. -/
def jsTrim (s : String) : String :=
  ⟨((s.data.dropWhile Char.isWhitespace).reverse.dropWhile Char.isWhitespace).reverse⟩

/-- `ActionConfig` from the source: a `{ title, prompt }` pair. -/
structure ActionConfig where
  title : String
  prompt : String
deriving Repr, DecidableEq

/-- The built-in `DEFAULT_CONFIGS` table, verbatim from the source. -/
def DEFAULT_CONFIGS : List (String × ActionConfig) :=
  [ ("action-1",
     { title := "Fix Grammar"
       prompt := "Fix all typos, spelling errors, and grammar issues in the following text. IMPORTANT: Do NOT change the capitalization of the first character - if it starts with a lowercase letter, keep it lowercase. Return only the corrected text without any explanation:" }),
    ("action-2",
     { title := "Make Concise"
       prompt := "Make the following text more concise while preserving the key meaning. Return only the rewritten text without explanation:" }),
    ("action-3",
     { title := "Create List"
       prompt := "Convert the following text into a clean bullet point list. Return only the list without explanation:" }),
    ("action-4",
     { title := "Make Professional"
       prompt := "Rewrite the following text to be more professional and polished, suitable for business communication. Return only the rewritten text without explanation:" }),
    ("action-5",
     { title := "Simplify"
       prompt := "Simplify the following text to make it easier to understand. Use simpler words and shorter sentences. Return only the simplified text without explanation:" }) ]

/-- Association-list lookup, modelling JS object indexing `table[key]`. -/
def lookupKey {α : Type} (l : List (String × α)) (k : String) : Option α :=
  (l.find? (fun p => p.1 == k)).map (fun p => p.2)

/-- JS `a || b` on strings: the empty string (and, collapsed into it,
`undefined`) is falsy and falls through to `b`. -/
def jsOr (a b : String) : String := if a = "" then b else a

/-- A persisted per-action override as parsed from the JSON blob: each of
the two fields may be absent (JS spread only overrides present keys). -/
structure PartialConfig where
  title? : Option String
  prompt? : Option String
deriving Repr, DecidableEq

/-- Outcome of reading and parsing the `action-configs` storage blob:
the `LocalStorage.getItem` call may throw, return nothing (falsy), the
`JSON.parse` may throw, or a map of per-action overrides is obtained.
All failure shapes are caught by the source (`catch` + log). -/
inductive StorageOutcome where
  | readThrew
  | absent
  | parseFailed
  | parsed (configs : List (String × PartialConfig))
deriving Repr, DecidableEq

/-- Layers (a)+(b): preferences over the built-in default table, via the
JS falsy-or chains of the source
(`prefs.title || DEFAULT_CONFIGS[actionId]?.title || actionId` and
`prefs.prompt || DEFAULT_CONFIGS[actionId]?.prompt || ""`). -/
def baseConfig (prefsTitle prefsPrompt actionId : String) : ActionConfig :=
  { title := jsOr prefsTitle
      (jsOr (((lookupKey DEFAULT_CONFIGS actionId).map (fun c => c.title)).getD "") actionId)
    prompt := jsOr prefsPrompt
      (jsOr (((lookupKey DEFAULT_CONFIGS actionId).map (fun c => c.prompt)).getD "") "") }

/-- JS object spread `{ ...currentConfig, ...configs[actionId] }`:
fields present in the override replace the base, absent fields keep it. -/
def mergeConfig (base : ActionConfig) (o : PartialConfig) : ActionConfig :=
  { title := o.title?.getD base.title
    prompt := o.prompt?.getD base.prompt }

/-- Step 1 of `runStealthActionInternal`: resolve the effective config.
Any storage failure is absorbed and the base layers are used. -/
def resolveConfig (prefsTitle prefsPrompt : String) (st : StorageOutcome)
    (actionId : String) : ActionConfig :=
  let base := baseConfig prefsTitle prefsPrompt actionId
  match st with
  | .parsed configs =>
      match lookupKey configs actionId with
      | some o => mergeConfig base o
      | none => base
  | _ => base

/-- The run-unique sentinel written to the clipboard before detection:
`__NO_SELECTION_${Date.now()}__`. -/
def markerToken (stamp : Int) : String :=
  "__NO_SELECTION_" ++ toString stamp ++ "__"

/-- The staging temp file name: `raycast-ai-${Date.now()}.txt`
(the `tmpdir()` directory prefix is constant and omitted). -/
def tempFileName (stamp : Int) : String :=
  "raycast-ai-" ++ toString stamp ++ ".txt"

/-- Observable external effects performed by one pipeline run, in order. -/
inductive Event where
  | configLoad
  | frontAppQuery
  | clipWrite (s : String)
  | keyCopy
  | clipRead
  | fallbackSeq
  | toastShown
  | aiCall (prompt : String)
  | fileWrite (name content : String)
  | fileDelete (name : String)
  | keyPaste
deriving Repr, DecidableEq

/-- Oracle fixing the outcome of every external operation of one run.
`Option String` reads: `none` means the read threw. Booleans: whether the
corresponding `execSync` / `writeFileSync` / `showToast` call succeeded.
`aiOutcome`: `none` = `AI.ask` threw, `some none` = it resolved to a null
result, `some (some s)` = it resolved to the string `s`. -/
structure Env where
  prefsTitle : String
  prefsPrompt : String
  storage : StorageOutcome
  markerStamp : Int
  markerWriteOk : Bool
  copyKeyOk : Bool
  firstRead : Option String
  fallbackKeysOk : Bool
  secondRead : Option String
  toastOk : Bool
  aiOutcome : Option (Option String)
  fileStamp : Int
  writeFileOk : Bool
  copyResultOk : Bool
  pasteOk : Bool
  unlinkOk : Bool
deriving Repr, DecidableEq

/-- Step 2 of `runStealthActionInternal` (the `if (!forceEditor)` block,
source lines 136-200): detect and capture the selection.  Returns the
events performed, `hasRealSelection`, and `selectedText`.  All throws
inside the block are caught by the enclosing `catch` clauses, which leave
`hasRealSelection = false`.  Keystroke events are recorded as attempts
(the `execSync` was invoked), clipboard reads only when they succeed. -/
def acquireSelection (env : Env) (forceEditor : Bool) :
    List Event × Bool × String :=
  if forceEditor then ([], false, "")
  else
    let tr := [Event.keyCopy]
    if env.copyKeyOk = false then (tr, false, "")
    else
      match env.firstRead with
      | none => (tr, false, "")
      | some clip1 =>
        let tr := tr ++ [Event.clipRead]
        if clip1 = markerToken env.markerStamp then
          let tr := tr ++ [Event.fallbackSeq]
          if env.fallbackKeysOk = false then (tr, false, "")
          else
            match env.secondRead with
            | none => (tr, false, "")
            | some clip2 =>
              let tr := tr ++ [Event.clipRead]
              if clip2 ≠ markerToken env.markerStamp ∧ jsTrim clip2 ≠ "" then
                (tr, true, clip2)
              else (tr, false, "")
        else (tr, true, clip1)

/-- Final outcome of one pipeline invocation. `threw` marks an exception
escaping `runStealthActionInternal` (a failing `showToast`); `failedEmpty`
is the caught `Error("Empty AI response")`; `failedOther` any other caught
failure of the AI/replacement phase. -/
inductive Outcome where
  | gateRejected
  | noSelection
  | threw
  | failedEmpty
  | failedOther
  | success
deriving Repr, DecidableEq

/-- Step 5 of `runStealthActionInternal` (source lines 247-270): stage the
cleaned result in a temp file, copy the file contents to the clipboard,
simulate the paste, and delete the temp file in a `finally`. A throwing
`writeFileSync` precedes the `try`, so no file exists to delete then.
The `unlinkSync` in the `finally` is wrapped in its own
`try { ... } catch { /* ignore */ }`: when the unlink itself throws the
error is swallowed and the file remains, so `Event.fileDelete` (the file
actually being removed) is emitted only when the unlink succeeds. -/
def replacePhase (env : Env) (cleanResult : String) : List Event × Outcome :=
  let name := tempFileName env.fileStamp
  if env.writeFileOk = false then ([], .failedOther)
  else
    let tr := [Event.fileWrite name cleanResult]
    let cleanup := if env.unlinkOk then [Event.fileDelete name] else []
    if env.copyResultOk = false then (tr ++ cleanup, .failedOther)
    else
      let tr := tr ++ [Event.clipWrite cleanResult]
      if env.pasteOk = false then (tr ++ cleanup, .failedOther)
      else (tr ++ [Event.keyPaste] ++ cleanup, .success)

/-- The events of `runStealthActionInternal` preceding the no-selection
guard: config load, frontmost-app query, the marker clipboard write
(performed before the `forceEditor` test, exactly as in the source, and
absent when the `pbcopy` throws), then the acquisition probe events. -/
def prefixTrace (env : Env) (forceEditor : Bool) : List Event :=
  [Event.configLoad, Event.frontAppQuery]
  ++ (if env.markerWriteOk then [Event.clipWrite (markerToken env.markerStamp)] else [])
  ++ (acquireSelection env forceEditor).1

/-- Step 4 and 5 of `runStealthActionInternal` (source lines 232-279):
call `AI.ask` once; throw `Error("Empty AI response")` when the result is
falsy (`null` or the empty string); otherwise trim it and run the
replacement phase.  Both throws are caught by the enclosing `catch`. -/
def aiPhase (env : Env) (prompt : String) : List Event × Outcome :=
  match env.aiOutcome with
  | none => ([Event.aiCall prompt], .failedOther)
  | some none => ([Event.aiCall prompt], .failedEmpty)
  | some (some result) =>
      if result = "" then ([Event.aiCall prompt], .failedEmpty)
      else
        let rep := replacePhase env (jsTrim result)
        (Event.aiCall prompt :: rep.1, rep.2)

/-- `runStealthActionInternal`: config resolution, frontmost-app query,
marker write, selection acquisition, the no-selection guard, the AI call
and the replacement phase, mirroring the source's control flow. -/
def runStealthActionInternal (env : Env) (actionId : String)
    (forceEditor : Bool) : List Event × Outcome :=
  let currentConfig :=
    resolveConfig env.prefsTitle env.prefsPrompt env.storage actionId
  let sel := acquireSelection env forceEditor
  let tr := prefixTrace env forceEditor
  if forceEditor ∨ sel.2.1 = false ∨ sel.2.2 = "" ∨ jsTrim sel.2.2 = "" then
    if env.toastOk then (tr ++ [Event.toastShown], .noSelection)
    else (tr, .threw)
  else
    if env.toastOk = false then (tr, .threw)
    else
      let ai := aiPhase env (currentConfig.prompt ++ "\n\n" ++ sel.2.2)
      (tr ++ [Event.toastShown] ++ ai.1, ai.2)

/-- The module-level `ExecutionLock` state: `isRunning` / `lastRunTime`. -/
structure LockState where
  isRunning : Bool
  lastRunTime : Int
deriving Repr, DecidableEq

/-- The initial module state: `let isRunning = false; let lastRunTime = 0`. -/
def initLock : LockState := { isRunning := false, lastRunTime := 0 }

/-- `runStealthAction`: the execution gate around one pipeline run.  A
trigger is rejected (empty trace) if a run is active or if fewer than
3000 ms elapsed since the previous admitted start; otherwise the lock is
taken, the internal pipeline runs, and the `finally` clears `isRunning`
on every exit path, including a throwing internal run. -/
def runStealthAction (st : LockState) (now : Int) (env : Env)
    (actionId : String) (forceEditor : Bool) :
    LockState × List Event × Outcome :=
  if st.isRunning then (st, [], .gateRejected)
  else if now - st.lastRunTime < 3000 then (st, [], .gateRejected)
  else
    let r := runStealthActionInternal env actionId forceEditor
    ({ isRunning := false, lastRunTime := now }, r.1, r.2)

/-- One external trigger of `runStealthAction`. -/
structure Trigger where
  now : Int
  env : Env
  actionId : String
  forceEditor : Bool

/-- Fold a sequence of triggers through the module lock state. -/
def runTriggers : List Trigger → LockState → LockState
  | [], st => st
  | t :: ts, st =>
      runTriggers ts (runStealthAction st t.now t.env t.actionId t.forceEditor).1

/-- Whether an event touches the staging temp file. -/
def isFileEvent : Event → Bool
  | Event.fileWrite _ _ => true
  | Event.fileDelete _ => true
  | _ => false

/-- Temp files written by a trace and not later deleted. -/
def remainingFiles (tr : List Event) (acc : List String) : List String :=
  match tr with
  | [] => acc
  | Event.fileWrite n _ :: rest => remainingFiles rest (acc ++ [n])
  | Event.fileDelete n :: rest => remainingFiles rest (acc.filter (fun m => m ≠ n))
  | _ :: rest => remainingFiles rest acc

/-- Whether a trace contains a model call. -/
def calledAI (tr : List Event) : Bool :=
  tr.any fun e => match e with
  | Event.aiCall _ => true
  | _ => false

/-- Number of simulated keystroke dispatches in a trace (copy, the
line-fallback sequence, paste). -/
def countKeystrokes (tr : List Event) : Nat :=
  tr.countP fun e => match e with
  | Event.keyCopy => true
  | Event.fallbackSeq => true
  | Event.keyPaste => true
  | _ => false

/-- Number of line-fallback sequences in a trace. -/
def countFallback (tr : List Event) : Nat :=
  tr.countP fun e => match e with
  | Event.fallbackSeq => true
  | _ => false

/-- Whether a storage outcome provides no override for an identifier. -/
def storageMisses (st : StorageOutcome) (aid : String) : Bool :=
  match st with
  | .parsed cs => (lookupKey cs aid).isNone
  | _ => true

/-- A concrete all-succeeding environment: a real selection is on the
clipboard after the simulated copy and the model answers with padded
text. -/
def envBase : Env :=
  { prefsTitle := "", prefsPrompt := "", storage := .absent
    markerStamp := 0, markerWriteOk := true, copyKeyOk := true
    firstRead := some "hello world", fallbackKeysOk := true
    secondRead := none, toastOk := true
    aiOutcome := some (some " fixed text "), fileStamp := 7
    writeFileOk := true, copyResultOk := true, pasteOk := true
    unlinkOk := true }

/-- `envBase` with the cleanup `unlinkSync` itself throwing; the source
swallows this error and leaves the temp file behind. -/
def envUnlinkFails : Env := { envBase with unlinkOk := false }

/-- `envBase` with a whitespace-only model response. -/
def envWhitespaceAI : Env := { envBase with aiOutcome := some (some " ") }

/-- `envBase` with no selection (first read still the marker) and a
whitespace-only current line captured by the fallback. -/
def envWhitespaceLine : Env :=
  { envBase with firstRead := some (markerToken 0), secondRead := some " " }

/-- `envBase` with no selection and a non-blank current line. -/
def envLineCapture : Env :=
  { envBase with firstRead := some (markerToken 0)
                 secondRead := some "hello line" }

/-! ## Helper lemmas -/

/-- One gate step never leaves the lock running when it was not running. -/
theorem lockStep_isRunning_false (st : LockState) (now : Int) (env : Env)
    (aid : String) (fe : Bool) (h : st.isRunning = false) :
    ((runStealthAction st now env aid fe).1).isRunning = false := by
  unfold runStealthAction
  split
  · exact h
  · split
    · exact h
    · rfl

/-- The selection-acquisition trace is one of five concrete prefixes of
the probe protocol. -/
theorem acquire_trace_cases (env : Env) (fe : Bool) :
    (acquireSelection env fe).1 = [] ∨
    (acquireSelection env fe).1 = [Event.keyCopy] ∨
    (acquireSelection env fe).1 = [Event.keyCopy, Event.clipRead] ∨
    (acquireSelection env fe).1
      = [Event.keyCopy, Event.clipRead, Event.fallbackSeq] ∨
    (acquireSelection env fe).1
      = [Event.keyCopy, Event.clipRead, Event.fallbackSeq, Event.clipRead] := by
  unfold acquireSelection
  repeat' split
  all_goals simp

/-- Every event of the selection-acquisition trace is one of the three
probe events. -/
theorem acquire_events (env : Env) (fe : Bool) :
    ∀ e ∈ (acquireSelection env fe).1,
      e = Event.keyCopy ∨ e = Event.clipRead ∨ e = Event.fallbackSeq := by
  intro e he
  rcases acquire_trace_cases env fe with h | h | h | h | h <;>
    rw [h] at he <;> simp at he <;> tauto

/-- The acquisition trace never contains a model call. -/
theorem acquire_no_aiCall (env : Env) (fe : Bool) :
    calledAI (acquireSelection env fe).1 = false := by
  rw [calledAI, List.any_eq_false]
  intro e he
  rcases acquire_events env fe e he with h | h | h <;> simp [h]

/-- The acquisition trace never contains a file event. -/
theorem acquire_clean_files (env : Env) (fe : Bool) :
    ∀ e ∈ (acquireSelection env fe).1, isFileEvent e = false := by
  intro e he
  rcases acquire_events env fe e he with h | h | h <;> simp [h, isFileEvent]

/-- A trace without file events leaves the pending-file accumulator
unchanged. -/
theorem remainingFiles_of_clean (tr : List Event)
    (h : ∀ e ∈ tr, isFileEvent e = false) (acc : List String) :
    remainingFiles tr acc = acc := by
  induction tr generalizing acc with
  | nil => rfl
  | cons e rest ih =>
      rw [List.forall_mem_cons] at h
      cases e
      case fileWrite n c => exact absurd h.1 (by simp [isFileEvent])
      case fileDelete n => exact absurd h.1 (by simp [isFileEvent])
      all_goals exact ih h.2 acc

/-- `remainingFiles` distributes over trace concatenation. -/
theorem remainingFiles_append (a b : List Event) (acc : List String) :
    remainingFiles (a ++ b) acc = remainingFiles b (remainingFiles a acc) := by
  induction a generalizing acc with
  | nil => rfl
  | cons e rest ih =>
      cases e <;> simp only [List.cons_append, remainingFiles] <;> exact ih _

/-- The acquisition trace leaves the pending-file accumulator unchanged. -/
theorem remainingFiles_acquire (env : Env) (fe : Bool) (acc : List String) :
    remainingFiles (acquireSelection env fe).1 acc = acc :=
  remainingFiles_of_clean _ (acquire_clean_files env fe) acc

/-- When the unlink succeeds, the replacement phase deletes every temp
file it creates. -/
theorem replace_files_deleted (env : Env) (c : String)
    (hu : env.unlinkOk = true) :
    remainingFiles (replacePhase env c).1 [] = [] := by
  unfold replacePhase
  repeat' split
  all_goals simp_all [remainingFiles]

/-- The pre-guard trace contains no file events. -/
theorem remainingFiles_prefixTrace (env : Env) (fe : Bool) (acc : List String) :
    remainingFiles (prefixTrace env fe) acc = acc := by
  unfold prefixTrace
  by_cases hm : env.markerWriteOk = true <;>
    simp [hm, remainingFiles_append, remainingFiles, remainingFiles_acquire]

/-- When the unlink succeeds, the AI-and-replacement phase deletes every
temp file it creates. -/
theorem remainingFiles_aiPhase (env : Env) (p : String)
    (hu : env.unlinkOk = true) :
    remainingFiles (aiPhase env p).1 [] = [] := by
  unfold aiPhase
  repeat' split
  all_goals simp [remainingFiles, replace_files_deleted, hu]

/-- The replacement phase never reports the empty-response failure. -/
theorem replace_not_failedEmpty (env : Env) (c : String) :
    (replacePhase env c).2 ≠ Outcome.failedEmpty := by
  unfold replacePhase
  repeat' split
  all_goals simp

/-! ## Claim theorems -/

/-- C1: the `ExecutionLock` active flag (`isRunning`) is false before the
first run and false again after every invocation of `runStealthAction`
terminates — whatever the action identifier, the `forceEditor` flag, and
whether the internal pipeline returns normally or throws at any step —
because the release runs on every exit path. -/
theorem c1_execution_lock_released :
    initLock.isRunning = false ∧
    ∀ ts : List Trigger, (runTriggers ts initLock).isRunning = false := by
  refine ⟨rfl, fun ts => ?_⟩
  have aux : ∀ (l : List Trigger) (st : LockState), st.isRunning = false →
      (runTriggers l st).isRunning = false := by
    intro l
    induction l with
    | nil => intro st h; exact h
    | cons t rest ih =>
        intro st h
        simp only [runTriggers]
        exact ih _ (lockStep_isRunning_false st t.now t.env t.actionId t.forceEditor h)
  exact aux ts initLock rfl

/-- C2: a trigger that fires while a run is active, or fewer than 3000 ms
after the start timestamp recorded for the previously admitted run,
performs no pipeline work (empty effect trace, `gateRejected`); an
admitted run records its own start timestamp, so at most one pipeline
executes for such a pair. -/
theorem c2_gate_rejects_silently :
    (∀ (st : LockState) (now : Int) (env : Env) (aid : String) (fe : Bool),
        st.isRunning = true ∨ now - st.lastRunTime < 3000 →
        (runStealthAction st now env aid fe).2.1 = [] ∧
        (runStealthAction st now env aid fe).2.2 = Outcome.gateRejected) ∧
    (∀ (st : LockState) (now : Int) (env : Env) (aid : String) (fe : Bool),
        st.isRunning = false → ¬ now - st.lastRunTime < 3000 →
        (runStealthAction st now env aid fe).1
          = { isRunning := false, lastRunTime := now }) := by
  constructor
  · intro st now env aid fe h
    unfold runStealthAction
    rcases h with h | h
    · simp [h]
    · by_cases hr : st.isRunning = true
      · simp [hr]
      · simp [hr, h]
  · intro st now env aid fe h1 h2
    unfold runStealthAction
    simp [h1, h2]

/-- Witness for C2: with the lock held a trigger at time 0 is a no-op;
with the lock free and the debounce window elapsed, a trigger at time
5000 is admitted and records its start. -/
theorem c2_gate_rejects_silently_witness :
    ((runStealthAction { isRunning := true, lastRunTime := 0 } 0 envBase
        "action-1" false).2.1 = [] ∧
     (runStealthAction { isRunning := true, lastRunTime := 0 } 0 envBase
        "action-1" false).2.2 = Outcome.gateRejected) ∧
    (runStealthAction { isRunning := false, lastRunTime := 0 } 5000 envBase
        "action-1" false).1 = { isRunning := false, lastRunTime := 5000 } :=
  ⟨c2_gate_rejects_silently.1 _ 0 envBase "action-1" false (Or.inl rfl),
   c2_gate_rejects_silently.2 _ 5000 envBase "action-1" false rfl (by decide)⟩

/-- C9: a trigger rejected by the gate (run active or debounce window not
elapsed) leaves both `ExecutionLock` fields unchanged; in particular
`lastRunTime` is not updated by a rejected trigger. -/
theorem c9_rejected_trigger_state_unchanged :
    ∀ (st : LockState) (now : Int) (env : Env) (aid : String) (fe : Bool),
      st.isRunning = true ∨ now - st.lastRunTime < 3000 →
      (runStealthAction st now env aid fe).1 = st := by
  intro st now env aid fe h
  unfold runStealthAction
  rcases h with h | h
  · simp [h]
  · by_cases hr : st.isRunning = true
    · simp [hr]
    · simp [hr, h]

/-- Witness for C9: a trigger 1 ms after the previous admitted start
leaves the lock state exactly as it was. -/
theorem c9_rejected_trigger_witness :
    (runStealthAction { isRunning := false, lastRunTime := 100 } 101 envBase
        "action-1" false).1 = { isRunning := false, lastRunTime := 100 } :=
  c9_rejected_trigger_state_unchanged _ 101 envBase "action-1" false
    (Or.inr (by decide))

/-- Counterexample for C7: when the `unlinkSync` in the cleanup
`finally` itself throws, the source swallows the error
(`catch { /* Ignore cleanup errors */ }`) and the staged temp file
remains after the run completes, even though the run succeeds. -/
theorem c7_unlink_failure_cex :
    (runStealthActionInternal envUnlinkFails "action-1" false).2
        = Outcome.success ∧
    remainingFiles (runStealthActionInternal envUnlinkFails "action-1" false).1
        [] = [tempFileName 7] := by
  decide

/-- C7 (amended): on every run of the internal pipeline the deletion of
the staged temp file is invoked on every exit path after the clipboard
copy, whether the simulated paste succeeds or throws; provided the
unlink primitive itself succeeds, no temp file created by the engine
remains after the run completes. -/
theorem c7_temp_file_always_deleted :
    ∀ (env : Env) (aid : String) (fe : Bool),
      env.unlinkOk = true →
      remainingFiles (runStealthActionInternal env aid fe).1 [] = [] := by
  intro env aid fe hu
  unfold runStealthActionInternal
  by_cases hg : fe = true ∨ (acquireSelection env fe).2.1 = false ∨
      (acquireSelection env fe).2.2 = "" ∨ jsTrim (acquireSelection env fe).2.2 = ""
  · rw [if_pos hg]
    by_cases hm : env.markerWriteOk = true <;> split <;>
      simp [prefixTrace, hm, remainingFiles_append, remainingFiles,
        remainingFiles_acquire]
  · rw [if_neg hg]
    by_cases hm : env.markerWriteOk = true <;> split <;>
      simp [prefixTrace, hm, remainingFiles_append, remainingFiles,
        remainingFiles_acquire, remainingFiles_aiPhase, hu]

/-- Witness for C7: on the all-succeeding run no temp file remains. -/
theorem c7_temp_file_deleted_witness :
    remainingFiles (runStealthActionInternal envBase "action-1" false).1 []
      = [] :=
  c7_temp_file_always_deleted envBase "action-1" false rfl

/-! ## More helper lemmas -/

/-- `calledAI` distributes over trace concatenation. -/
theorem calledAI_append (a b : List Event) :
    calledAI (a ++ b) = (calledAI a || calledAI b) := by
  simp [calledAI, List.any_append]

/-- The pre-guard trace contains no model call. -/
theorem calledAI_prefixTrace (env : Env) (fe : Bool) :
    calledAI (prefixTrace env fe) = false := by
  unfold prefixTrace
  rw [calledAI_append, calledAI_append, acquire_no_aiCall]
  by_cases hm : env.markerWriteOk = true <;> simp [hm, calledAI]

/-- When the no-selection guard fires, the pipeline makes no model call
and terminates in the no-selection report (or rethrows the toast). -/
theorem internal_guard_cases (env : Env) (aid : String) (fe : Bool)
    (hg : fe = true ∨ (acquireSelection env fe).2.1 = false ∨
      (acquireSelection env fe).2.2 = "" ∨ jsTrim (acquireSelection env fe).2.2 = "") :
    calledAI (runStealthActionInternal env aid fe).1 = false ∧
    (env.toastOk = true →
      (runStealthActionInternal env aid fe).2 = Outcome.noSelection) ∧
    (env.toastOk = false →
      (runStealthActionInternal env aid fe).2 = Outcome.threw) := by
  unfold runStealthActionInternal
  rw [if_pos hg]
  refine ⟨?_, ?_, ?_⟩
  · split
    · rw [calledAI_append, calledAI_prefixTrace]
      simp [calledAI]
    · exact calledAI_prefixTrace env fe
  · intro ht
    rw [if_pos ht]
  · intro ht
    rw [if_neg (by simp [ht])]

/-- A non-marker first clipboard read is captured verbatim as a real
selection. -/
theorem acquire_direct (env : Env) (s : String)
    (hc : env.copyKeyOk = true) (hr : env.firstRead = some s)
    (hm : s ≠ markerToken env.markerStamp) :
    acquireSelection env false = ([Event.keyCopy, Event.clipRead], true, s) := by
  unfold acquireSelection
  simp [hc, hr, hm]

/-- The AI phase always records its model call. -/
theorem aiCall_mem_aiPhase (env : Env) (p : String) :
    Event.aiCall p ∈ (aiPhase env p).1 := by
  unfold aiPhase
  repeat' split
  all_goals simp

/-- The AI phase fails with the empty-response error exactly when the
model resolved to null or to the empty string (before any trimming). -/
theorem aiPhase_failedEmpty_iff (env : Env) (p : String) :
    (aiPhase env p).2 = Outcome.failedEmpty ↔
      env.aiOutcome = some none ∨ env.aiOutcome = some (some "") := by
  unfold aiPhase
  repeat' split
  all_goals simp_all [replace_not_failedEmpty]

/-- A successful replacement phase performs exactly the stage, copy and
paste effects, in order, followed by the delete when the unlink
succeeds. -/
theorem replace_success_trace (env : Env) (c : String)
    (h : (replacePhase env c).2 = Outcome.success) :
    (replacePhase env c).1 =
      [Event.fileWrite (tempFileName env.fileStamp) c,
       Event.clipWrite c, Event.keyPaste]
      ++ (if env.unlinkOk = true
          then [Event.fileDelete (tempFileName env.fileStamp)] else []) := by
  unfold replacePhase at h ⊢
  by_cases h1 : env.writeFileOk = false
  · rw [if_pos h1] at h
    simp at h
  · rw [if_neg h1] at h ⊢
    by_cases h2 : env.copyResultOk = false
    · rw [if_pos h2] at h
      simp at h
    · rw [if_neg h2] at h ⊢
      by_cases h3 : env.pasteOk = false
      · rw [if_pos h3] at h
        simp at h
      · rw [if_neg h3]
        simp

/-- A successful AI phase on a non-empty model result `r` performs the
model call followed by the replacement effects on the trimmed result. -/
theorem aiPhase_success_trace (env : Env) (p r : String)
    (hr : env.aiOutcome = some (some r))
    (hs : (aiPhase env p).2 = Outcome.success) :
    (aiPhase env p).1 =
      [Event.aiCall p,
       Event.fileWrite (tempFileName env.fileStamp) (jsTrim r),
       Event.clipWrite (jsTrim r), Event.keyPaste]
      ++ (if env.unlinkOk = true
          then [Event.fileDelete (tempFileName env.fileStamp)] else []) := by
  unfold aiPhase at hs ⊢
  rw [hr] at hs ⊢
  simp only at hs ⊢
  by_cases he : r = ""
  · rw [if_pos he] at hs
    simp at hs
  · rw [if_neg he] at hs ⊢
    simp only at hs ⊢
    rw [replace_success_trace env (jsTrim r) hs]
    simp

/-- The pre-guard trace stages no file. -/
theorem prefixTrace_no_fileWrite (env : Env) (fe : Bool) (n c : String) :
    Event.fileWrite n c ∉ prefixTrace env fe := by
  unfold prefixTrace
  by_cases hm : env.markerWriteOk = true <;> simp [hm] <;>
    intro h <;> rcases acquire_events env fe _ h with h' | h' | h' <;>
    simp at h'

/-- C8: the prompt resolver absorbs an unreadable or unparseable
persisted blob and proceeds with the defaults-plus-preferences base
layers only; for an identifier unknown to every layer the identifier
itself becomes the title and the instruction is empty. -/
theorem c8_config_resolution_robust :
    (∀ pt pp aid : String,
        resolveConfig pt pp StorageOutcome.readThrew aid = baseConfig pt pp aid ∧
        resolveConfig pt pp StorageOutcome.absent aid = baseConfig pt pp aid ∧
        resolveConfig pt pp StorageOutcome.parseFailed aid = baseConfig pt pp aid) ∧
    (∀ (pt pp aid : String) (st : StorageOutcome),
        pt = "" → pp = "" → lookupKey DEFAULT_CONFIGS aid = none →
        storageMisses st aid = true →
        resolveConfig pt pp st aid = { title := aid, prompt := "" }) := by
  constructor
  · intro pt pp aid
    exact ⟨rfl, rfl, rfl⟩
  · intro pt pp aid st h1 h2 hd hm
    subst h1
    subst h2
    cases st with
    | parsed cs =>
        unfold storageMisses at hm
        rw [Option.isNone_iff_eq_none] at hm
        simp [resolveConfig, hm, baseConfig, hd, jsOr]
    | readThrew => simp [resolveConfig, baseConfig, hd, jsOr]
    | absent => simp [resolveConfig, baseConfig, hd, jsOr]
    | parseFailed => simp [resolveConfig, baseConfig, hd, jsOr]

/-- Witness for C8: a corrupt blob leaves the base config for a known
action, and the unknown identifier action-99 resolves to itself with an
empty instruction. -/
theorem c8_config_resolution_witness :
    (resolveConfig "" "" StorageOutcome.readThrew "action-1"
        = baseConfig "" "" "action-1" ∧
     resolveConfig "" "" StorageOutcome.absent "action-1"
        = baseConfig "" "" "action-1" ∧
     resolveConfig "" "" StorageOutcome.parseFailed "action-1"
        = baseConfig "" "" "action-1") ∧
    resolveConfig "" "" StorageOutcome.absent "action-99"
      = { title := "action-99", prompt := "" } :=
  ⟨c8_config_resolution_robust.1 "" "" "action-1",
   c8_config_resolution_robust.2 "" "" "action-99" StorageOutcome.absent
     rfl rfl (by decide) rfl⟩

/-- C5: when the clipboard read after the first simulated copy differs
from the marker and is non-empty, the captured selection equals those
clipboard contents exactly, and the model prompt embeds them with no
trimming. -/
theorem c5_direct_capture_exact :
    ∀ (env : Env) (aid : String) (s : String),
      env.copyKeyOk = true → env.firstRead = some s →
      s ≠ markerToken env.markerStamp → s ≠ "" →
      (acquireSelection env false).2 = (true, s) ∧
      (env.toastOk = true → jsTrim s ≠ "" →
        Event.aiCall
            ((resolveConfig env.prefsTitle env.prefsPrompt env.storage aid).prompt
              ++ "\n\n" ++ s)
          ∈ (runStealthActionInternal env aid false).1) := by
  intro env aid s hc hr hm hs
  have ha := acquire_direct env s hc hr hm
  refine ⟨by rw [ha], ?_⟩
  intro ht htr
  have hng : ¬(false = true ∨ (acquireSelection env false).2.1 = false ∨
      (acquireSelection env false).2.2 = "" ∨
      jsTrim (acquireSelection env false).2.2 = "") := by
    rw [ha]
    simp [hs, htr]
  unfold runStealthActionInternal
  rw [if_neg hng, if_neg (by simp [ht])]
  rw [ha]
  simp [List.mem_append, aiCall_mem_aiPhase]

/-- Witness for C5: the clipboard holds a real selection, which reaches
the model prompt byte-for-byte. -/
theorem c5_direct_capture_witness :
    (acquireSelection envBase false).2 = (true, "hello world") ∧
    Event.aiCall
        ((resolveConfig envBase.prefsTitle envBase.prefsPrompt envBase.storage
            "action-1").prompt ++ "\n\n" ++ "hello world")
      ∈ (runStealthActionInternal envBase "action-1" false).1 :=
  ⟨(c5_direct_capture_exact envBase "action-1" "hello world" rfl rfl
      (by decide) (by decide)).1,
   (c5_direct_capture_exact envBase "action-1" "hello world" rfl rfl
      (by decide) (by decide)).2 rfl (by decide)⟩

/-- Counterexample for C6: after a marker first read, the fallback
re-read " " differs from the marker and is non-empty, yet the line is
NOT captured — the code additionally requires the re-read to be
non-blank after trimming — so the run ends with no selection and no
model call. -/
theorem c6_whitespace_line_cex :
    envWhitespaceLine.firstRead
        = some (markerToken envWhitespaceLine.markerStamp) ∧
    envWhitespaceLine.secondRead = some " " ∧
    " " ≠ markerToken envWhitespaceLine.markerStamp ∧ (" " : String) ≠ "" ∧
    (acquireSelection envWhitespaceLine false).2.1 = false ∧
    calledAI (runStealthActionInternal envWhitespaceLine "action-1" false).1
        = false ∧
    (runStealthActionInternal envWhitespaceLine "action-1" false).2
        = Outcome.noSelection := by
  decide

/-- C6 (amended): when the first read still equals the marker, the
line-fallback sequence runs exactly once; if the re-read differs from
the marker and is non-empty after trimming the line is captured,
otherwise the run reports no selection and makes no model call. -/
theorem c6_fallback_line_behavior :
    ∀ (env : Env) (aid : String),
      env.copyKeyOk = true →
      env.firstRead = some (markerToken env.markerStamp) →
      countFallback (acquireSelection env false).1 = 1 ∧
      (∀ s2 : String, env.fallbackKeysOk = true → env.secondRead = some s2 →
          s2 ≠ markerToken env.markerStamp → jsTrim s2 ≠ "" →
          (acquireSelection env false).2 = (true, s2)) ∧
      ((acquireSelection env false).2.1 = false →
          calledAI (runStealthActionInternal env aid false).1 = false ∧
          (env.toastOk = true →
            (runStealthActionInternal env aid false).2 = Outcome.noSelection)) := by
  intro env aid hc hr
  refine ⟨?_, ?_, ?_⟩
  · unfold acquireSelection
    simp only [hc, hr]
    repeat' split
    all_goals simp_all [countFallback]
  · intro s2 hf hsr hs2m hs2t
    unfold acquireSelection
    simp [hc, hr, hf, hsr, hs2m, hs2t]
  · intro h
    have := internal_guard_cases env aid false (Or.inr (Or.inl h))
    exact ⟨this.1, this.2.1⟩

/-- Witness for C6: a marker first read followed by a non-blank line
capture, plus the no-capture branch on a whitespace-only line. -/
theorem c6_fallback_line_witness :
    countFallback (acquireSelection envLineCapture false).1 = 1 ∧
    (acquireSelection envLineCapture false).2 = (true, "hello line") ∧
    calledAI (runStealthActionInternal envWhitespaceLine "action-1" false).1
        = false :=
  ⟨(c6_fallback_line_behavior envLineCapture "action-1" rfl (by decide)).1,
   (c6_fallback_line_behavior envLineCapture "action-1" rfl (by decide)).2.1
     "hello line" rfl rfl (by decide) (by decide),
   ((c6_fallback_line_behavior envWhitespaceLine "action-1" rfl
       (by decide)).2.2 (by decide)).1⟩

/-- Counterexample for C4: in forced-editor mode the MarkerToken IS
written to the clipboard — the write happens before the forceEditor test
— contradicting the claim that no clipboard write occurs. -/
theorem c4_marker_write_in_forced_mode_cex :
    Event.clipWrite (markerToken envBase.markerStamp)
      ∈ (runStealthActionInternal envBase "action-1" true).1 := by
  decide

/-- C4 (amended): with forceEditorMode true, selection acquisition
returns immediately with acquired = false; no simulated keystroke and no
model call is performed and the run routes to manual prompt editing —
but the MarkerToken clipboard write still occurs (when the write
succeeds), since it precedes the forceEditor test. -/
theorem c4_forced_editor_behavior :
    ∀ (env : Env) (aid : String),
      acquireSelection env true = ([], false, "") ∧
      countKeystrokes (runStealthActionInternal env aid true).1 = 0 ∧
      calledAI (runStealthActionInternal env aid true).1 = false ∧
      (env.toastOk = true →
        (runStealthActionInternal env aid true).2 = Outcome.noSelection) ∧
      (env.markerWriteOk = true →
        Event.clipWrite (markerToken env.markerStamp)
          ∈ (runStealthActionInternal env aid true).1) := by
  intro env aid
  have hg : true = true ∨ (acquireSelection env true).2.1 = false ∨
      (acquireSelection env true).2.2 = "" ∨
      jsTrim (acquireSelection env true).2.2 = "" := Or.inl rfl
  have hcases := internal_guard_cases env aid true hg
  refine ⟨rfl, ?_, hcases.1, hcases.2.1, ?_⟩
  · unfold runStealthActionInternal
    rw [if_pos hg]
    split <;>
      by_cases hm : env.markerWriteOk = true <;>
      simp [prefixTrace, hm, acquireSelection, countKeystrokes]
  · intro hm
    unfold runStealthActionInternal
    rw [if_pos hg]
    split <;> simp [prefixTrace, hm]

/-- Witness for C4: concrete forced-editor run with every discharged
conclusion. -/
theorem c4_forced_editor_witness :
    acquireSelection envBase true = ([], false, "") ∧
    countKeystrokes (runStealthActionInternal envBase "action-1" true).1 = 0 ∧
    calledAI (runStealthActionInternal envBase "action-1" true).1 = false ∧
    (runStealthActionInternal envBase "action-1" true).2
        = Outcome.noSelection ∧
    Event.clipWrite (markerToken envBase.markerStamp)
      ∈ (runStealthActionInternal envBase "action-1" true).1 :=
  ⟨(c4_forced_editor_behavior envBase "action-1").1,
   (c4_forced_editor_behavior envBase "action-1").2.1,
   (c4_forced_editor_behavior envBase "action-1").2.2.1,
   (c4_forced_editor_behavior envBase "action-1").2.2.2.1 rfl,
   (c4_forced_editor_behavior envBase "action-1").2.2.2.2 rfl⟩

/-- Counterexample for C3: a whitespace-only model response (" ") is not
treated as a failure — the falsy check precedes the trim — so it trims
to the empty string, which is staged, copied, and pasted. -/
theorem c3_whitespace_response_cex :
    envWhitespaceAI.aiOutcome = some (some " ") ∧ jsTrim " " = "" ∧
    (runStealthActionInternal envWhitespaceAI "action-1" false).2
        = Outcome.success ∧
    (runStealthActionInternal envWhitespaceAI "action-1" false).2
        ≠ Outcome.failedEmpty ∧
    Event.keyPaste
      ∈ (runStealthActionInternal envWhitespaceAI "action-1" false).1 ∧
    Event.clipWrite ""
      ∈ (runStealthActionInternal envWhitespaceAI "action-1" false).1 := by
  decide

/-- C3 (amended): the transformation step fails with the empty-response
error exactly when the model result is null or the empty string BEFORE
trimming; a whitespace-only response is not a failure — it is trimmed
and pasted. -/
theorem c3_empty_check_before_trim :
    ∀ (env : Env) (aid : String) (fe : Bool),
      calledAI (runStealthActionInternal env aid fe).1 = true →
      ((runStealthActionInternal env aid fe).2 = Outcome.failedEmpty ↔
        env.aiOutcome = some none ∨ env.aiOutcome = some (some "")) := by
  intro env aid fe hAI
  by_cases hg : fe = true ∨ (acquireSelection env fe).2.1 = false ∨
      (acquireSelection env fe).2.2 = "" ∨ jsTrim (acquireSelection env fe).2.2 = ""
  · rw [(internal_guard_cases env aid fe hg).1] at hAI
    exact absurd hAI (by simp)
  · by_cases ht : env.toastOk = false
    · unfold runStealthActionInternal at hAI
      rw [if_neg hg, if_pos ht] at hAI
      rw [calledAI_prefixTrace] at hAI
      exact absurd hAI (by simp)
    · unfold runStealthActionInternal
      rw [if_neg hg, if_neg ht]
      simpa using aiPhase_failedEmpty_iff env _

/-- Witness for C3: a run that reaches the model call; the failure
criterion coincides with the null-or-empty-before-trim test. -/
theorem c3_empty_check_witness :
    calledAI (runStealthActionInternal envBase "action-1" false).1 = true ∧
    ((runStealthActionInternal envBase "action-1" false).2
        = Outcome.failedEmpty ↔
      envBase.aiOutcome = some none ∨ envBase.aiOutcome = some (some "")) :=
  ⟨by decide, c3_empty_check_before_trim envBase "action-1" false (by decide)⟩

/-- C10: on every successful run the text staged into the temp file,
copied to the clipboard, and pasted is the model result with leading and
trailing whitespace trimmed — not the raw result when they differ. -/
theorem c10_trimmed_result_staged :
    ∀ (env : Env) (aid : String) (fe : Bool) (r : String),
      (runStealthActionInternal env aid fe).2 = Outcome.success →
      env.aiOutcome = some (some r) →
      Event.fileWrite (tempFileName env.fileStamp) (jsTrim r)
          ∈ (runStealthActionInternal env aid fe).1 ∧
      Event.clipWrite (jsTrim r) ∈ (runStealthActionInternal env aid fe).1 ∧
      Event.keyPaste ∈ (runStealthActionInternal env aid fe).1 ∧
      (jsTrim r ≠ r → ∀ n : String,
        Event.fileWrite n r ∉ (runStealthActionInternal env aid fe).1) := by
  intro env aid fe r hs hr
  by_cases hg : fe = true ∨ (acquireSelection env fe).2.1 = false ∨
      (acquireSelection env fe).2.2 = "" ∨ jsTrim (acquireSelection env fe).2.2 = ""
  · exfalso
    by_cases ht : env.toastOk = true
    · rw [(internal_guard_cases env aid fe hg).2.1 ht] at hs
      exact absurd hs (by simp)
    · rw [(internal_guard_cases env aid fe hg).2.2 (by simpa using ht)] at hs
      exact absurd hs (by simp)
  · by_cases ht : env.toastOk = false
    · unfold runStealthActionInternal at hs
      rw [if_neg hg, if_pos ht] at hs
      exact absurd hs (by simp)
    · unfold runStealthActionInternal at hs ⊢
      rw [if_neg hg, if_neg ht] at hs ⊢
      simp only at hs ⊢
      have htrace := aiPhase_success_trace env
        ((resolveConfig env.prefsTitle env.prefsPrompt env.storage aid).prompt
          ++ "\n\n" ++ (acquireSelection env fe).2.2) r hr hs
      rw [htrace]
      refine ⟨by simp, by simp, by simp, ?_⟩
      intro hne n
      simp only [List.mem_append]
      rintro ((hmem | hmem) | hmem)
      · exact prefixTrace_no_fileWrite env fe n r hmem
      · simp at hmem
      · simp at hmem
        exact hne hmem.2.symm

/-- Witness for C10: on the all-succeeding run with model result
" fixed text ", the trimmed text "fixed text" is staged, copied and
pasted, and the raw untrimmed result is never staged. -/
theorem c10_trimmed_result_witness :
    Event.fileWrite (tempFileName 7) (jsTrim " fixed text ")
        ∈ (runStealthActionInternal envBase "action-1" false).1 ∧
    Event.clipWrite (jsTrim " fixed text ")
        ∈ (runStealthActionInternal envBase "action-1" false).1 ∧
    Event.keyPaste ∈ (runStealthActionInternal envBase "action-1" false).1 ∧
    Event.fileWrite (tempFileName 7) " fixed text "
        ∉ (runStealthActionInternal envBase "action-1" false).1 := by
  have h := c10_trimmed_result_staged envBase "action-1" false " fixed text "
    (by decide) rfl
  exact ⟨h.1, h.2.1, h.2.2.1, h.2.2.2 (by decide) (tempFileName 7)⟩
